import Mathlib

set_option maxRecDepth 400000

/-!
Verification development for the autonity-cax client library (src/index.js).

The library is a single class `Cax` holding an Ethereum-wallet identity and an
optional API-key credential, exposing thin wrappers over HTTP endpoints.  We
embed the class shallowly: instance state is a record, external collaborators
(HTTP responses, wallet signing, the clock, the host timezone) are an explicit
environment, and each public method is a function from state and environment to
the new state, the list of HTTP requests it issues (in order), and a success or
thrown-error outcome.

The date helper `convertToISO8601` first-match-rewrites the separator with a
regex and then runs the string through the ECMAScript `Date` constructor and
`toISOString`.  We model the ECMAScript Date Time String Format restricted to
the shapes reachable here: `YYYY-MM-DDTHH:MM:SS`, `YYYY-MM-DDTHH:MM:SS.sss`
(both interpreted as *local* time, since they carry no offset designator) and
the date-only shape `YYYY-MM-DD` (interpreted as UTC).  Hour field 24 and the
extended-year rendering of `toISOString` (years outside 0000..9999 after the
timezone shift) are outside the modeled subset; strings outside these shapes
parse as an invalid date, and `toISOString` on an invalid date throws, which we
model as `Except.error ()`.
-/

namespace Cax

/-! ### Proleptic Gregorian calendar arithmetic -/

/-- Gregorian leap-year rule, as used by ECMAScript `Date`. -/
def isLeap (y : Nat) : Prop := (y % 4 = 0 ∧ y % 100 ≠ 0) ∨ y % 400 = 0

instance (y : Nat) : Decidable (isLeap y) := by
  unfold isLeap; infer_instance

def daysInYear (y : Nat) : Nat := if isLeap y then 366 else 365

/-- Length of month `m` (1..12) of year `y`. -/
def daysInMonth (y : Nat) (m : Nat) : Nat :=
  if m = 2 then (if isLeap y then 29 else 28)
  else if m = 4 ∨ m = 6 ∨ m = 9 ∨ m = 11 then 30 else 31

/-- Days from 0000-01-01 to the start of year `y` (recursive characterisation). -/
def yearStart : Nat → Nat
  | 0 => 0
  | y + 1 => yearStart y + daysInYear y

/-- Closed form of `yearStart` (365·y plus the number of leap years below `y`). -/
def yearStartClosed (y : Nat) : Nat :=
  365 * y + (y + 3) / 4 - (y + 99) / 100 + (y + 399) / 400

/-- Days from the start of month `m` of year `y` to the start of the month
`k` months later (months count on past December for `k` large, which the
callers never exercise). -/
def monthStartFrom (y : Nat) : Nat → Nat → Nat
  | _, 0 => 0
  | m, k + 1 => daysInMonth y m + monthStartFrom y (m + 1) k

/-- Days from the start of year `y0` to the start of year `y0 + k`. -/
def yearStartFrom (y0 : Nat) : Nat → Nat
  | 0 => 0
  | k + 1 => daysInYear y0 + yearStartFrom (y0 + 1) k

/-- Day number (days since 0000-01-01) of the calendar date `y-m-d`. -/
def daysSinceYear0 (y m d : Nat) : Nat :=
  yearStartClosed y + monthStartFrom y 1 (m - 1) + (d - 1)

/-- Recover the year and the day offset within it from a day number, by
scanning years from `y`; `fuel` bounds the scan.  This realizes ECMAScript's
`YearFromTime` characterisation (the largest year whose start is at most the
given day) on the modeled range. -/
def findYear : Nat → Nat → Nat → Nat × Nat
  | 0, y, rem => (y, rem)
  | fuel + 1, y, rem =>
    if rem < daysInYear y then (y, rem) else findYear fuel (y + 1) (rem - daysInYear y)

/-- Recover the month and day offset within it from a day offset inside year
`y`, scanning months from `m`; realizes ECMAScript's `MonthFromTime`. -/
def findMonth : Nat → Nat → Nat → Nat → Nat × Nat
  | 0, _, m, rem => (m, rem)
  | fuel + 1, y, m, rem =>
    if rem < daysInMonth y m then (m, rem) else findMonth fuel y (m + 1) (rem - daysInMonth y m)

/-! ### Digits, parsing and rendering -/

def digitChar (n : Nat) : Char := Char.ofNat (48 + n)

def digitVal (c : Char) : Nat := c.toNat - 48

def read2 (a b : Char) : Nat := digitVal a * 10 + digitVal b

def read3 (a b c : Char) : Nat := digitVal a * 100 + digitVal b * 10 + digitVal c

def read4 (a b c d : Char) : Nat :=
  digitVal a * 1000 + digitVal b * 100 + digitVal c * 10 + digitVal d

def pad2 (n : Nat) : String := String.mk [digitChar (n / 10), digitChar (n % 10)]

def pad3 (n : Nat) : String :=
  String.mk [digitChar (n / 100), digitChar (n / 10 % 10), digitChar (n % 10)]

def pad4 (n : Nat) : String :=
  String.mk [digitChar (n / 1000), digitChar (n / 100 % 10), digitChar (n / 10 % 10),
    digitChar (n % 10)]

/-- Calendar-validity condition imposed by the ECMAScript ISO date parser. -/
def validDate (y m d : Nat) : Prop := 1 ≤ m ∧ m ≤ 12 ∧ 1 ≤ d ∧ d ≤ daysInMonth y m

instance (y m d : Nat) : Decidable (validDate y m d) := by
  unfold validDate; infer_instance

def validTime (h mi s : Nat) : Prop := h ≤ 23 ∧ mi ≤ 59 ∧ s ≤ 59

instance (h mi s : Nat) : Decidable (validTime h mi s) := by
  unfold validTime; infer_instance

def millisPerDay : Nat := 86400000

/-- Milliseconds since the UNIX epoch of the given UTC field values (may be
negative for years before 1970). -/
def fieldsToMillis (y m d h mi s ms : Nat) : Int :=
  ((daysSinceYear0 y m d * millisPerDay
      + (h * 3600000 + mi * 60000 + s * 1000 + ms) : Nat) : Int)
    - ((yearStartClosed 1970 * millisPerDay : Nat) : Int)

/-- Parse the 19-character shape `YYYY-MM-DDTHH:MM:SS` or the 23-character
shape `YYYY-MM-DDTHH:MM:SS.sss` into field values. -/
def parseDateTimeChars : List Char → Option (Nat × Nat × Nat × Nat × Nat × Nat × Nat)
  | [y1, y2, y3, y4, '-', a1, a2, '-', b1, b2, 'T', c1, c2, ':', d1, d2, ':', e1, e2] =>
    if (y1.isDigit && y2.isDigit && y3.isDigit && y4.isDigit && a1.isDigit && a2.isDigit
        && b1.isDigit && b2.isDigit && c1.isDigit && c2.isDigit && d1.isDigit && d2.isDigit
        && e1.isDigit && e2.isDigit) then
      let y := read4 y1 y2 y3 y4
      let mo := read2 a1 a2
      let dy := read2 b1 b2
      let hr := read2 c1 c2
      let mi := read2 d1 d2
      let se := read2 e1 e2
      if validDate y mo dy ∧ validTime hr mi se then some (y, mo, dy, hr, mi, se, 0) else none
    else none
  | [y1, y2, y3, y4, '-', a1, a2, '-', b1, b2, 'T', c1, c2, ':', d1, d2, ':', e1, e2,
      '.', f1, f2, f3] =>
    if (y1.isDigit && y2.isDigit && y3.isDigit && y4.isDigit && a1.isDigit && a2.isDigit
        && b1.isDigit && b2.isDigit && c1.isDigit && c2.isDigit && d1.isDigit && d2.isDigit
        && e1.isDigit && e2.isDigit && f1.isDigit && f2.isDigit && f3.isDigit) then
      let y := read4 y1 y2 y3 y4
      let mo := read2 a1 a2
      let dy := read2 b1 b2
      let hr := read2 c1 c2
      let mi := read2 d1 d2
      let se := read2 e1 e2
      if validDate y mo dy ∧ validTime hr mi se then
        some (y, mo, dy, hr, mi, se, read3 f1 f2 f3)
      else none
    else none
  | _ => none

/-- Parse the date-only shape `YYYY-MM-DD`. -/
def parseDateChars : List Char → Option (Nat × Nat × Nat)
  | [y1, y2, y3, y4, '-', a1, a2, '-', b1, b2] =>
    if (y1.isDigit && y2.isDigit && y3.isDigit && y4.isDigit && a1.isDigit && a2.isDigit
        && b1.isDigit && b2.isDigit) then
      let y := read4 y1 y2 y3 y4
      let mo := read2 a1 a2
      let dy := read2 b1 b2
      if validDate y mo dy then some (y, mo, dy) else none
    else none
  | _ => none

/-- `new Date(string)` on the modeled shapes, as a time value in milliseconds.
A date-time shape without an offset designator is interpreted as *local* time,
so the host timezone offset `tz` (in minutes, ECMAScript sign convention:
UTC minus local) is added; the date-only shape is interpreted as UTC.
`none` is the invalid date (`NaN` time value). -/
def jsDateParse (tz : Int) (l : List Char) : Option Int :=
  match parseDateTimeChars l with
  | some (y, mo, dy, hr, mi, se, ms) =>
    some (fieldsToMillis y mo dy hr mi se ms + tz * 60000)
  | none =>
    match parseDateChars l with
    | some (y, mo, dy) => some (fieldsToMillis y mo dy 0 0 0 0)
    | none => none

def renderISO (y m d h mi s ms : Nat) : String :=
  pad4 y ++ "-" ++ pad2 m ++ "-" ++ pad2 d ++ "T" ++ pad2 h ++ ":" ++ pad2 mi ++ ":"
    ++ pad2 s ++ "." ++ pad3 ms ++ "Z"

/-- `Date.prototype.toISOString` on the modeled range: split the time value
into a day number and time of day, recover the UTC calendar fields, and render
them zero-padded with a `Z` suffix.  Out of the modeled range (final UTC year
outside 0000..9999) the model returns `none`. -/
def toISOString (millis : Int) : Option String :=
  let total : Int := millis + ((yearStartClosed 1970 * millisPerDay : Nat) : Int)
  if 0 ≤ total then
    let n := total.toNat
    let dayNum := n / millisPerDay
    let tod := n % millisPerDay
    if dayNum < yearStartClosed 10000 then
      let yr := findYear 10000 0 dayNum
      let mr := findMonth 12 yr.1 1 yr.2
      some (renderISO yr.1 mr.1 (mr.2 + 1) (tod / 3600000) (tod / 60000 % 60)
        (tod / 1000 % 60) (tod % 1000))
    else none
  else none

/-! ### The regex rewrite of `convertToISO8601` -/

/-- Try to match `(\d⁴-\d²-\d²)-(\d²:\d²:\d²)` at the head of the character
list; on success return the replacement `$1T$2` together with the unconsumed
suffix. -/
def isPatternAt : List Char → Option (List Char × List Char)
  | y1 :: y2 :: y3 :: y4 :: '-' :: a1 :: a2 :: '-' :: b1 :: b2 :: '-' :: c1 :: c2 :: ':'
      :: d1 :: d2 :: ':' :: e1 :: e2 :: rest =>
    if (y1.isDigit && y2.isDigit && y3.isDigit && y4.isDigit && a1.isDigit && a2.isDigit
        && b1.isDigit && b2.isDigit && c1.isDigit && c2.isDigit && d1.isDigit && d2.isDigit
        && e1.isDigit && e2.isDigit) then
      some ([y1, y2, y3, y4, '-', a1, a2, '-', b1, b2, 'T', c1, c2, ':', d1, d2, ':',
        e1, e2], rest)
    else none
  | _ => none

/-- `String.prototype.replace` with a non-global regex: rewrite the leftmost
match, leave everything else unchanged. -/
def replaceFirst : List Char → List Char
  | [] => []
  | c :: cs =>
    match isPatternAt (c :: cs) with
    | some (rep, rest) => rep ++ rest
    | none => c :: replaceFirst cs

/-- Whether the rewrite pattern matches anywhere in the list. -/
def hasPatternMatch : List Char → Bool
  | [] => false
  | c :: cs => (isPatternAt (c :: cs)).isSome || hasPatternMatch cs

/-- `convertToISO8601(dateString)` (src/index.js:34-38): rewrite the first
date-time separator match, feed the result to `new Date`, and render with
`toISOString`.  `Except.error ()` is the `RangeError` that `toISOString`
throws on an invalid date. -/
def convertToISO8601 (tz : Int) (dateString : String) : Except Unit String :=
  let isoChars := replaceFirst dateString.data
  match jsDateParse tz isoChars with
  | some millis =>
    match toISOString millis with
    | some str => Except.ok str
    | none => Except.error ()
  | none => Except.error ()

/-! ### Client state, environment and requests -/

/-- Instance state of the `Cax` class: identity (private key, wallet, derived
address), the fixed base URL, the stored API key, and the `API-Key` header
value kept inside `this.config`.  The wallet is determined by the private key;
its signing behaviour lives in the environment. -/
structure State where
  privateKey : String
  wallet : String
  address : String
  baseUrl : String
  apiKey : Option String
  configApiKey : Option String
  deriving DecidableEq

/-- External collaborators: wallet address derivation and message signing, the
clock (`Date.now()`), the API key the `/apikeys` endpoint returns, and the
host timezone offset in minutes (ECMAScript sign convention). -/
structure Env where
  deriveAddress : String → String
  sign : String → String
  nowMillis : Nat
  issuedApiKey : String
  tzOffset : Int

inductive HttpVerb where
  | get
  | post
  | delete
  deriving DecidableEq

/-- An outgoing HTTP request: verb, URL, the `API-Key` header value if that
header is sent, the `api-sig` header value if sent, and the JSON body if any. -/
structure Request where
  verb : HttpVerb
  url : String
  apiKey : Option String
  apiSig : Option String
  body : Option String
  deriving DecidableEq

def caxBaseUrl : String := "https://cax.piccadilly.autonity.org/api"

/-- The constructor (src/index.js:15-26): store the key, derive the wallet and
address, fix the base URL, and initialize the config header from the key. -/
def mkCax (env : Env) (privateKey : String) (apiKey : Option String) : State :=
  { privateKey := privateKey
    wallet := privateKey
    address := env.deriveAddress privateKey
    baseUrl := caxBaseUrl
    apiKey := apiKey
    configApiKey := apiKey }

/-- JavaScript truthiness of the stored string-or-undefined values: `undefined`
and the empty string are falsy. -/
def isTruthyOpt : Option String → Bool
  | none => false
  | some s => !s.isEmpty

/-- Unwrap an optional string parameter for URL interpolation; the default is
only reached on branches the truthiness guards exclude. -/
def orEmpty : Option String → String
  | none => ""
  | some s => s

/-- `updateApiKey(apiKey)` (src/index.js:45-48). -/
def updateApiKey (s : State) (apiKey : String) : State :=
  { s with apiKey := some apiKey, configApiKey := some apiKey }

/-- `JSON.stringify({nonce: `${Date.now()}`})`. -/
def nonceJson (n : Nat) : String := "\x7b\"nonce\":\"" ++ Nat.repr n ++ "\"\x7d"

/-- `createApiKey(sig, payload)` (src/index.js:69-78): POST the payload with
the `api-sig` header, store the returned key via `updateApiKey`, return it. -/
def createApiKey (env : Env) (s : State) (sig : String) (payload : String) :
    State × List Request × String :=
  (updateApiKey s env.issuedApiKey,
    [{ verb := HttpVerb.post, url := s.baseUrl ++ "/apikeys", apiKey := none,
       apiSig := some sig, body := some payload }],
    env.issuedApiKey)

/-- `generateApiKey()` (src/index.js:55-60): build the nonce payload, sign its
JSON serialization with the wallet, and delegate to `createApiKey`. -/
def generateApiKey (env : Env) (s : State) : State × List Request × String :=
  let message := nonceJson env.nowMillis
  let sig := env.sign message
  createApiKey env s sig message

/-- The key-issuance request `generateApiKey` sends, as a function of the
state and environment. -/
def keyIssuanceReq (s : State) (env : Env) : Request :=
  { verb := HttpVerb.post, url := s.baseUrl ++ "/apikeys", apiKey := none,
    apiSig := some (env.sign (nonceJson env.nowMillis)),
    body := some (nonceJson env.nowMillis) }

/-- The lazy-auth prelude `if (!this.apiKey) { await this.generateApiKey() }`
shared by every authenticated method. -/
def ensureApiKey (env : Env) (s : State) : State × List Request :=
  if isTruthyOpt s.apiKey then (s, [])
  else
    let g := generateApiKey env s
    (g.1, g.2.1)

/-- A GET request sent with `this.config`. -/
def mkGet (url : String) (hdr : Option String) : Request :=
  { verb := HttpVerb.get, url := url, apiKey := hdr, apiSig := none, body := none }

/-- A GET request sent without a config argument (no `API-Key` header). -/
def bareGet (url : String) : Request :=
  { verb := HttpVerb.get, url := url, apiKey := none, apiSig := none, body := none }

/-- A POST request sent with `this.config` and a JSON body. -/
def mkPost (url : String) (hdr : Option String) (payload : String) : Request :=
  { verb := HttpVerb.post, url := url, apiKey := hdr, apiSig := none, body := some payload }

/-- A DELETE request sent with `this.config`. -/
def mkDelete (url : String) (hdr : Option String) : Request :=
  { verb := HttpVerb.delete, url := url, apiKey := hdr, apiSig := none, body := none }

def getBalances (env : Env) (s : State) (symbol : Option String) :
    State × List Request × Except Unit Unit :=
  let p := ensureApiKey env s
  let url := if isTruthyOpt symbol then p.1.baseUrl ++ "/balances/" ++ orEmpty symbol
    else p.1.baseUrl ++ "/balances"
  (p.1, p.2 ++ [mkGet url p.1.configApiKey], Except.ok ())

def getDeposits (env : Env) (s : State) (startTime endTime symbol : Option String) :
    State × List Request × Except Unit Unit :=
  let p := ensureApiKey env s
  if isTruthyOpt startTime && isTruthyOpt endTime && isTruthyOpt symbol then
    match convertToISO8601 env.tzOffset (orEmpty endTime),
        convertToISO8601 env.tzOffset (orEmpty startTime) with
    | Except.ok en, Except.ok st =>
      (p.1, p.2 ++ [mkGet (p.1.baseUrl ++ "/deposits/?end=" ++ en ++ "&start=" ++ st
        ++ "&symbol=" ++ orEmpty symbol) p.1.configApiKey], Except.ok ())
    | _, _ => (p.1, p.2, Except.error ())
  else
    (p.1, p.2 ++ [mkGet (p.1.baseUrl ++ "/deposits") p.1.configApiKey], Except.ok ())

def getDepositInfo (env : Env) (s : State) (txId : String) :
    State × List Request × Except Unit Unit :=
  let p := ensureApiKey env s
  (p.1, p.2 ++ [mkGet (p.1.baseUrl ++ "/deposits/" ++ txId) p.1.configApiKey], Except.ok ())

def getRefunds (env : Env) (s : State) (startTime endTime symbol : Option String) :
    State × List Request × Except Unit Unit :=
  let p := ensureApiKey env s
  if isTruthyOpt startTime && isTruthyOpt endTime && isTruthyOpt symbol then
    match convertToISO8601 env.tzOffset (orEmpty endTime),
        convertToISO8601 env.tzOffset (orEmpty startTime) with
    | Except.ok en, Except.ok st =>
      (p.1, p.2 ++ [mkGet (p.1.baseUrl ++ "/refunds/?end=" ++ en ++ "&start=" ++ st
        ++ "&symbol=" ++ orEmpty symbol) p.1.configApiKey], Except.ok ())
    | _, _ => (p.1, p.2, Except.error ())
  else
    (p.1, p.2 ++ [mkGet (p.1.baseUrl ++ "/refunds") p.1.configApiKey], Except.ok ())

def getRefundInfo (env : Env) (s : State) (txId : String) :
    State × List Request × Except Unit Unit :=
  let p := ensureApiKey env s
  (p.1, p.2 ++ [mkGet (p.1.baseUrl ++ "/refunds/" ++ txId) p.1.configApiKey], Except.ok ())

def getWithdraws (env : Env) (s : State) (status startTime endTime symbol : Option String) :
    State × List Request × Except Unit Unit :=
  let p := ensureApiKey env s
  if isTruthyOpt status && isTruthyOpt startTime && isTruthyOpt endTime
      && isTruthyOpt symbol then
    match convertToISO8601 env.tzOffset (orEmpty endTime),
        convertToISO8601 env.tzOffset (orEmpty startTime) with
    | Except.ok en, Except.ok st =>
      (p.1, p.2 ++ [mkGet (p.1.baseUrl ++ "/withdraws/?status=" ++ orEmpty status
        ++ "&end=" ++ en ++ "&start=" ++ st ++ "&symbol=" ++ orEmpty symbol)
        p.1.configApiKey], Except.ok ())
    | _, _ => (p.1, p.2, Except.error ())
  else
    (p.1, p.2 ++ [mkGet (p.1.baseUrl ++ "/withdraws") p.1.configApiKey], Except.ok ())

def requestWithdraw (env : Env) (s : State) (payload : String) :
    State × List Request × Except Unit Unit :=
  let p := ensureApiKey env s
  (p.1, p.2 ++ [mkPost (p.1.baseUrl ++ "/withdraws") p.1.configApiKey payload], Except.ok ())

def getWithdrawInfo (env : Env) (s : State) (txId : String) :
    State × List Request × Except Unit Unit :=
  let p := ensureApiKey env s
  (p.1, p.2 ++ [mkGet (p.1.baseUrl ++ "/withdraws/" ++ txId) p.1.configApiKey], Except.ok ())

/-- `getOrderbooks()` (src/index.js:223-226).  Note: the source passes
`this.config`, so the request carries the `API-Key` header whenever a key is
set; there is no lazy-auth prelude. -/
def getOrderbooks (env : Env) (s : State) : State × List Request × Except Unit Unit :=
  (s, [mkGet (s.baseUrl ++ "/orderbooks") s.configApiKey], Except.ok ())

def getOrderbookInfo (env : Env) (s : State) (pair : String) :
    State × List Request × Except Unit Unit :=
  (s, [bareGet (s.baseUrl ++ "/orderbooks/" ++ pair)], Except.ok ())

def getOrderbookDepth (env : Env) (s : State) (pair : String) :
    State × List Request × Except Unit Unit :=
  (s, [bareGet (s.baseUrl ++ "/orderbooks/" ++ pair ++ "/depth")], Except.ok ())

def getOrderbookQuote (env : Env) (s : State) (pair : String) :
    State × List Request × Except Unit Unit :=
  (s, [bareGet (s.baseUrl ++ "/orderbooks/" ++ pair ++ "/quote")], Except.ok ())

def getTradeHistory (env : Env) (s : State) (pair : String) (date : Option String) :
    State × List Request × Except Unit Unit :=
  let url := if isTruthyOpt date then
      s.baseUrl ++ "/orderbooks/" ++ pair ++ "/trades/?data=" ++ orEmpty date
    else s.baseUrl ++ "/orderbooks/" ++ pair ++ "/trades"
  (s, [bareGet url], Except.ok ())

def getExchangeStatus (env : Env) (s : State) : State × List Request × Except Unit Unit :=
  (s, [bareGet (s.baseUrl ++ "/status")], Except.ok ())

def getSymbols (env : Env) (s : State) : State × List Request × Except Unit Unit :=
  (s, [bareGet (s.baseUrl ++ "/symbols")], Except.ok ())

def getSymbolsInfo (env : Env) (s : State) (name : String) :
    State × List Request × Except Unit Unit :=
  (s, [bareGet (s.baseUrl ++ "/symbols/" ++ name)], Except.ok ())

def getOrders (env : Env) (s : State) (status startTime endTime pair : Option String) :
    State × List Request × Except Unit Unit :=
  let p := ensureApiKey env s
  if isTruthyOpt status && isTruthyOpt startTime && isTruthyOpt endTime
      && isTruthyOpt pair then
    match convertToISO8601 env.tzOffset (orEmpty endTime),
        convertToISO8601 env.tzOffset (orEmpty startTime) with
    | Except.ok en, Except.ok st =>
      (p.1, p.2 ++ [mkGet (p.1.baseUrl ++ "/orders/?status=" ++ orEmpty status
        ++ "&end=" ++ en ++ "&start=" ++ st ++ "&symbol=" ++ orEmpty pair)
        p.1.configApiKey], Except.ok ())
    | _, _ => (p.1, p.2, Except.error ())
  else
    (p.1, p.2 ++ [mkGet (p.1.baseUrl ++ "/orders") p.1.configApiKey], Except.ok ())

def submitLimitOrder (env : Env) (s : State) (payload : String) :
    State × List Request × Except Unit Unit :=
  let p := ensureApiKey env s
  (p.1, p.2 ++ [mkPost (p.1.baseUrl ++ "/orders/") p.1.configApiKey payload], Except.ok ())

def getOrderInfo (env : Env) (s : State) (orderId : String) :
    State × List Request × Except Unit Unit :=
  let p := ensureApiKey env s
  (p.1, p.2 ++ [mkGet (p.1.baseUrl ++ "/orders/" ++ orderId) p.1.configApiKey], Except.ok ())

def cancelOrder (env : Env) (s : State) (orderId : String) :
    State × List Request × Except Unit Unit :=
  let p := ensureApiKey env s
  (p.1, p.2 ++ [mkDelete (p.1.baseUrl ++ "/orders/" ++ orderId) p.1.configApiKey], Except.ok ())

/-- `getTrades` (src/index.js:394-403): with all four parameters truthy the
trades endpoint is queried with `end`, `start`, `pair` and `orderId` filters;
otherwise the URL falls back to the *orders* listing endpoint. -/
def getTrades (env : Env) (s : State) (startTime endTime pair orderId : Option String) :
    State × List Request × Except Unit Unit :=
  let p := ensureApiKey env s
  if isTruthyOpt startTime && isTruthyOpt endTime && isTruthyOpt pair
      && isTruthyOpt orderId then
    match convertToISO8601 env.tzOffset (orEmpty endTime),
        convertToISO8601 env.tzOffset (orEmpty startTime) with
    | Except.ok en, Except.ok st =>
      (p.1, p.2 ++ [mkGet (p.1.baseUrl ++ "/trades/?end=" ++ en ++ "&start=" ++ st
        ++ "&pair=" ++ orEmpty pair ++ "&orderId=" ++ orEmpty orderId)
        p.1.configApiKey], Except.ok ())
    | _, _ => (p.1, p.2, Except.error ())
  else
    (p.1, p.2 ++ [mkGet (p.1.baseUrl ++ "/orders") p.1.configApiKey], Except.ok ())

def getTradeInfo (env : Env) (s : State) (tradeId : String) :
    State × List Request × Except Unit Unit :=
  let p := ensureApiKey env s
  (p.1, p.2 ++ [mkGet (p.1.baseUrl ++ "/trades/" ++ tradeId) p.1.configApiKey], Except.ok ())

/-! ### The public operations as a single dispatch -/

/-- One public operation on a client instance, with its arguments. -/
inductive Call where
  | updateApiKey (k : String)
  | generateApiKey
  | getBalances (symbol : Option String)
  | getDeposits (startTime endTime symbol : Option String)
  | getDepositInfo (txId : String)
  | getRefunds (startTime endTime symbol : Option String)
  | getRefundInfo (txId : String)
  | getWithdraws (status startTime endTime symbol : Option String)
  | requestWithdraw (payload : String)
  | getWithdrawInfo (txId : String)
  | getOrderbooks
  | getOrderbookInfo (pair : String)
  | getOrderbookDepth (pair : String)
  | getOrderbookQuote (pair : String)
  | getTradeHistory (pair : String) (date : Option String)
  | getExchangeStatus
  | getSymbols
  | getSymbolsInfo (name : String)
  | getOrders (status startTime endTime pair : Option String)
  | submitLimitOrder (payload : String)
  | getOrderInfo (orderId : String)
  | cancelOrder (orderId : String)
  | getTrades (startTime endTime pair orderId : Option String)
  | getTradeInfo (tradeId : String)
  | convertDate (dateString : String)
  deriving DecidableEq

/-- The methods that touch a private endpoint (behind the lazy-auth prelude). -/
def isAuthCall : Call → Bool
  | Call.getBalances _ => true
  | Call.getDeposits _ _ _ => true
  | Call.getDepositInfo _ => true
  | Call.getRefunds _ _ _ => true
  | Call.getRefundInfo _ => true
  | Call.getWithdraws _ _ _ _ => true
  | Call.requestWithdraw _ => true
  | Call.getWithdrawInfo _ => true
  | Call.getOrders _ _ _ _ => true
  | Call.submitLimitOrder _ => true
  | Call.getOrderInfo _ => true
  | Call.cancelOrder _ => true
  | Call.getTrades _ _ _ _ => true
  | Call.getTradeInfo _ => true
  | _ => false

/-- Run one public operation. -/
def run (env : Env) (s : State) : Call → State × List Request × Except Unit Unit
  | Call.updateApiKey k => (updateApiKey s k, [], Except.ok ())
  | Call.generateApiKey =>
    let g := generateApiKey env s
    (g.1, g.2.1, Except.ok ())
  | Call.getBalances symbol => getBalances env s symbol
  | Call.getDeposits a b c => getDeposits env s a b c
  | Call.getDepositInfo t => getDepositInfo env s t
  | Call.getRefunds a b c => getRefunds env s a b c
  | Call.getRefundInfo t => getRefundInfo env s t
  | Call.getWithdraws a b c d => getWithdraws env s a b c d
  | Call.requestWithdraw payload => requestWithdraw env s payload
  | Call.getWithdrawInfo t => getWithdrawInfo env s t
  | Call.getOrderbooks => getOrderbooks env s
  | Call.getOrderbookInfo pr => getOrderbookInfo env s pr
  | Call.getOrderbookDepth pr => getOrderbookDepth env s pr
  | Call.getOrderbookQuote pr => getOrderbookQuote env s pr
  | Call.getTradeHistory pr dt => getTradeHistory env s pr dt
  | Call.getExchangeStatus => getExchangeStatus env s
  | Call.getSymbols => getSymbols env s
  | Call.getSymbolsInfo n => getSymbolsInfo env s n
  | Call.getOrders a b c d => getOrders env s a b c d
  | Call.submitLimitOrder payload => submitLimitOrder env s payload
  | Call.getOrderInfo oid => getOrderInfo env s oid
  | Call.cancelOrder oid => cancelOrder env s oid
  | Call.getTrades a b c d => getTrades env s a b c d
  | Call.getTradeInfo t => getTradeInfo env s t
  | Call.convertDate ds =>
    (s, [], match convertToISO8601 env.tzOffset ds with
      | Except.ok _ => Except.ok ()
      | Except.error _ => Except.error ())

def runState (env : Env) (s : State) (c : Call) : State := (run env s c).1

def runReqs (env : Env) (s : State) (c : Call) : List Request := (run env s c).2.1

/-- A request is a key-issuance request exactly when it carries the `api-sig`
header (only `createApiKey` sends that header). -/
def isIssuance (r : Request) : Bool := r.apiSig.isSome

def noIssuance (l : List Request) : Bool := l.all fun r => !isIssuance r

/-! ### Canonical pattern strings and sample data -/

/-- The canonical string of shape `YYYY-MM-DD-HH:MM:SS` with the given field
values; every input string matching the fixed pattern is of this form. -/
def patternString (y m d h mi s : Nat) : String :=
  pad4 y ++ "-" ++ pad2 m ++ "-" ++ pad2 d ++ "-" ++ pad2 h ++ ":" ++ pad2 mi ++ ":"
    ++ pad2 s

/-- The character list underlying `patternString`. -/
def patternList (y m d h mi s : Nat) : List Char :=
  [digitChar (y / 1000), digitChar (y / 100 % 10), digitChar (y / 10 % 10), digitChar (y % 10),
   '-', digitChar (m / 10), digitChar (m % 10), '-', digitChar (d / 10), digitChar (d % 10),
   '-', digitChar (h / 10), digitChar (h % 10), ':', digitChar (mi / 10), digitChar (mi % 10),
   ':', digitChar (s / 10), digitChar (s % 10)]

/-- `patternList` after the regex rewrite (`T` in place of the third dash). -/
def replacedList (y m d h mi s : Nat) : List Char :=
  [digitChar (y / 1000), digitChar (y / 100 % 10), digitChar (y / 10 % 10), digitChar (y % 10),
   '-', digitChar (m / 10), digitChar (m % 10), '-', digitChar (d / 10), digitChar (d % 10),
   'T', digitChar (h / 10), digitChar (h % 10), ':', digitChar (mi / 10), digitChar (mi % 10),
   ':', digitChar (s / 10), digitChar (s % 10)]

def samplePk : String := "0xdeadbeef"
def sampleAddr : String := "0xA11CE"
def sampleSig : String := "0x5160"
def sampleKey : String := "K1"
def sampleKey2 : String := "K2"
def sampleSym : String := "NTN"
def samplePair : String := "NTN-USD"
def sampleOid : String := "42"

/-- A concrete environment for witnesses: zero timezone offset, fixed clock,
fixed issued key, constant collaborator functions. -/
def sampleEnv : Env :=
  { deriveAddress := fun _ => sampleAddr
    sign := fun _ => sampleSig
    nowMillis := 1700000000000
    issuedApiKey := sampleKey
    tzOffset := 0 }

/-- A client constructed with a pre-set API key. -/
def sampleStateKeyed : State := mkCax sampleEnv samplePk (some sampleKey)

/-- A client constructed with no API key. -/
def sampleStateBare : State := mkCax sampleEnv samplePk none

def ds1 : String := "0004-01-02-03:04:05"
def iso1 : String := "0004-01-02T03:04:05.000Z"
def ds2 : String := "0004-02-03-04:05:06"
def iso2 : String := "0004-02-03T04:05:06.000Z"
def ds2024 : String := "2024-01-02-03:04:05"
def iso2024 : String := "2024-01-02T03:04:05.000Z"
def iso2024shifted : String := "2024-01-02T02:04:05.000Z"
def dateOnly2024 : String := "2024-01-02"
def dateOnly2024iso : String := "2024-01-02T00:00:00.000Z"
def badInput : String := "garbage"
def emptyKey : String := ""

/-- A client whose stored API key is the empty string. -/
def sampleStateEmptyKey : State := mkCax sampleEnv samplePk (some emptyKey)

end Cax

namespace Cax

/-! ### Calendar lemmas -/

theorem yearStartFrom_succ (k : Nat) : ∀ y0 : Nat,
    yearStartFrom y0 (k + 1) = yearStartFrom y0 k + daysInYear (y0 + k) := by
  induction k with
  | zero => intro y0; simp [yearStartFrom]
  | succ k ih =>
    intro y0
    have h1 : yearStartFrom y0 (k + 1 + 1) = daysInYear y0 + yearStartFrom (y0 + 1) (k + 1) :=
      rfl
    have h2 : yearStartFrom y0 (k + 1) = daysInYear y0 + yearStartFrom (y0 + 1) k := rfl
    have h3 : y0 + 1 + k = y0 + (k + 1) := by omega
    rw [h1, ih (y0 + 1), h2, h3]
    omega

theorem yearStart_eq_from (k : Nat) : yearStart k = yearStartFrom 0 k := by
  induction k with
  | zero => rfl
  | succ k ih =>
    have h1 : yearStart (k + 1) = yearStart k + daysInYear k := rfl
    rw [h1, ih, yearStartFrom_succ]
    simp

set_option maxHeartbeats 2000000 in
theorem yearStartClosed_succ (y : Nat) :
    yearStartClosed (y + 1) = yearStartClosed y + daysInYear y := by
  unfold yearStartClosed daysInYear
  by_cases h : isLeap y
  · rw [if_pos h]
    unfold isLeap at h
    omega
  · rw [if_neg h]
    unfold isLeap at h
    omega

theorem yearStart_eq_closed (y : Nat) : yearStart y = yearStartClosed y := by
  induction y with
  | zero => rfl
  | succ y ih =>
    have h1 : yearStart (y + 1) = yearStart y + daysInYear y := rfl
    rw [h1, ih, yearStartClosed_succ]

theorem yearStart_mono {a b : Nat} (h : a ≤ b) : yearStart a ≤ yearStart b := by
  induction b, h using Nat.le_induction with
  | base => exact Nat.le_refl _
  | succ b _ ih =>
    have h1 : yearStart (b + 1) = yearStart b + daysInYear b := rfl
    omega

theorem findYear_spec (k : Nat) : ∀ fuel y0 rem : Nat, k < fuel →
    rem < daysInYear (y0 + k) →
    findYear fuel y0 (yearStartFrom y0 k + rem) = (y0 + k, rem) := by
  induction k with
  | zero =>
    intro fuel y0 rem hf hrem
    match fuel, hf with
    | fuel + 1, _ =>
      have h0 : yearStartFrom y0 0 + rem = rem := by simp [yearStartFrom]
      have hrem' : rem < daysInYear y0 := by simpa using hrem
      rw [h0]
      simp only [findYear]
      rw [if_pos hrem']
      simp
  | succ k ih =>
    intro fuel y0 rem hf hrem
    match fuel, hf with
    | fuel + 1, hf =>
      have h1 : yearStartFrom y0 (k + 1) = daysInYear y0 + yearStartFrom (y0 + 1) k := rfl
      simp only [findYear, h1]
      rw [if_neg (by omega)]
      have h2 : daysInYear y0 + yearStartFrom (y0 + 1) k + rem - daysInYear y0
          = yearStartFrom (y0 + 1) k + rem := by omega
      rw [h2]
      have h3 : rem < daysInYear (y0 + 1 + k) := by
        have : y0 + 1 + k = y0 + (k + 1) := by omega
        rw [this]; exact hrem
      have := ih fuel (y0 + 1) rem (by omega) h3
      rw [this]
      have h4 : y0 + 1 + k = y0 + (k + 1) := by omega
      rw [h4]

theorem monthStartFrom_succ (k : Nat) : ∀ m : Nat,
    ∀ y : Nat, monthStartFrom y m (k + 1) = monthStartFrom y m k + daysInMonth y (m + k) := by
  induction k with
  | zero => intro m y; simp [monthStartFrom]
  | succ k ih =>
    intro m y
    have h1 : monthStartFrom y m (k + 1 + 1) = daysInMonth y m + monthStartFrom y (m + 1) (k + 1) :=
      rfl
    have h2 : monthStartFrom y m (k + 1) = daysInMonth y m + monthStartFrom y (m + 1) k := rfl
    have h3 : m + 1 + k = m + (k + 1) := by omega
    rw [h1, ih (m + 1) y, h2, h3]
    omega

theorem findMonth_spec (k : Nat) : ∀ fuel m0 rem y : Nat, k < fuel →
    rem < daysInMonth y (m0 + k) →
    findMonth fuel y m0 (monthStartFrom y m0 k + rem) = (m0 + k, rem) := by
  induction k with
  | zero =>
    intro fuel m0 rem y hf hrem
    match fuel, hf with
    | fuel + 1, _ =>
      have h0 : monthStartFrom y m0 0 + rem = rem := by simp [monthStartFrom]
      have hrem' : rem < daysInMonth y m0 := by simpa using hrem
      rw [h0]
      simp only [findMonth]
      rw [if_pos hrem']
      simp
  | succ k ih =>
    intro fuel m0 rem y hf hrem
    match fuel, hf with
    | fuel + 1, hf =>
      have h1 : monthStartFrom y m0 (k + 1) = daysInMonth y m0 + monthStartFrom y (m0 + 1) k :=
        rfl
      simp only [findMonth, h1]
      rw [if_neg (by omega)]
      have h2 : daysInMonth y m0 + monthStartFrom y (m0 + 1) k + rem - daysInMonth y m0
          = monthStartFrom y (m0 + 1) k + rem := by omega
      rw [h2]
      have h3 : rem < daysInMonth y (m0 + 1 + k) := by
        have : m0 + 1 + k = m0 + (k + 1) := by omega
        rw [this]; exact hrem
      have := ih fuel (m0 + 1) rem y (by omega) h3
      rw [this]
      have h4 : m0 + 1 + k = m0 + (k + 1) := by omega
      rw [h4]

theorem daysInMonth_le_31 (y m : Nat) : daysInMonth y m ≤ 31 := by
  unfold daysInMonth
  split_ifs <;> omega

theorem monthStartFrom_add (j k : Nat) : ∀ m y : Nat,
    monthStartFrom y m (k + j) = monthStartFrom y m k + monthStartFrom y (m + k) j := by
  induction k with
  | zero => intro m y; simp [monthStartFrom]
  | succ k ih =>
    intro m y
    have h0 : k + 1 + j = (k + j) + 1 := by omega
    rw [h0]
    have h1 : monthStartFrom y m (k + j + 1) = daysInMonth y m + monthStartFrom y (m + 1) (k + j) :=
      rfl
    have h2 : monthStartFrom y m (k + 1) = daysInMonth y m + monthStartFrom y (m + 1) k := rfl
    have h3 : m + 1 + k = m + (k + 1) := by omega
    rw [h1, ih (m + 1) y, h2, h3]
    omega

theorem monthsTotal (y : Nat) : monthStartFrom y 1 12 = daysInYear y := by
  have e : monthStartFrom y 1 12
      = daysInMonth y 1 + (daysInMonth y 2 + (daysInMonth y 3 + (daysInMonth y 4
        + (daysInMonth y 5 + (daysInMonth y 6 + (daysInMonth y 7 + (daysInMonth y 8
        + (daysInMonth y 9 + (daysInMonth y 10 + (daysInMonth y 11
        + (daysInMonth y 12 + 0))))))))))) := rfl
  rw [e]
  by_cases h : isLeap y <;> simp [daysInMonth, daysInYear, h]

/-- Within a valid date, the day offset inside the year is below the year
length. -/
theorem inYear_lt (y m d : Nat) (hv : validDate y m d) :
    monthStartFrom y 1 (m - 1) + (d - 1) < daysInYear y := by
  obtain ⟨hm1, hm2, hd1, hd2⟩ := hv
  have hsplit : monthStartFrom y 1 12
      = monthStartFrom y 1 (m - 1) + monthStartFrom y (1 + (m - 1)) (12 - (m - 1)) := by
    have h0 := monthStartFrom_add (12 - (m - 1)) (m - 1) 1 y
    have h12 : (m - 1) + (12 - (m - 1)) = 12 := by omega
    rw [h12] at h0
    exact h0
  have h1m : 1 + (m - 1) = m := by omega
  rw [h1m] at hsplit
  have hj : 12 - (m - 1) = (12 - m) + 1 := by omega
  rw [hj] at hsplit
  have hstep : monthStartFrom y m ((12 - m) + 1)
      = daysInMonth y m + monthStartFrom y (m + 1) (12 - m) := rfl
  rw [hstep] at hsplit
  have htot := monthsTotal y
  omega

/-! ### Digit and parsing lemmas -/

theorem digitChar_isDigit (n : Nat) (h : n < 10) : (digitChar n).isDigit = true := by
  interval_cases n <;> decide

theorem digitVal_digitChar (n : Nat) (h : n < 10) : digitVal (digitChar n) = n := by
  interval_cases n <;> decide

theorem patternString_data (y m d h mi s : Nat) :
    (patternString y m d h mi s).data = patternList y m d h mi s := rfl

theorem isPatternAt_canonical (y m d h mi s : Nat) (hy : y ≤ 9999) (hm : m ≤ 12)
    (hd : d ≤ 31) (hh : h ≤ 23) (hmi : mi ≤ 59) (hs : s ≤ 59) :
    isPatternAt (patternList y m d h mi s) = some (replacedList y m d h mi s, []) := by
  have d01 : (digitChar (y / 1000)).isDigit = true := digitChar_isDigit _ (by omega)
  have d02 : (digitChar (y / 100 % 10)).isDigit = true := digitChar_isDigit _ (by omega)
  have d03 : (digitChar (y / 10 % 10)).isDigit = true := digitChar_isDigit _ (by omega)
  have d04 : (digitChar (y % 10)).isDigit = true := digitChar_isDigit _ (by omega)
  have d05 : (digitChar (m / 10)).isDigit = true := digitChar_isDigit _ (by omega)
  have d06 : (digitChar (m % 10)).isDigit = true := digitChar_isDigit _ (by omega)
  have d07 : (digitChar (d / 10)).isDigit = true := digitChar_isDigit _ (by omega)
  have d08 : (digitChar (d % 10)).isDigit = true := digitChar_isDigit _ (by omega)
  have d09 : (digitChar (h / 10)).isDigit = true := digitChar_isDigit _ (by omega)
  have d10 : (digitChar (h % 10)).isDigit = true := digitChar_isDigit _ (by omega)
  have d11 : (digitChar (mi / 10)).isDigit = true := digitChar_isDigit _ (by omega)
  have d12 : (digitChar (mi % 10)).isDigit = true := digitChar_isDigit _ (by omega)
  have d13 : (digitChar (s / 10)).isDigit = true := digitChar_isDigit _ (by omega)
  have d14 : (digitChar (s % 10)).isDigit = true := digitChar_isDigit _ (by omega)
  simp [patternList, replacedList, isPatternAt, d01, d02, d03, d04, d05, d06, d07, d08,
    d09, d10, d11, d12, d13, d14]

theorem replaceFirst_canonical (y m d h mi s : Nat) (hy : y ≤ 9999) (hm : m ≤ 12)
    (hd : d ≤ 31) (hh : h ≤ 23) (hmi : mi ≤ 59) (hs : s ≤ 59) :
    replaceFirst (patternList y m d h mi s) = replacedList y m d h mi s := by
  have hpat := isPatternAt_canonical y m d h mi s hy hm hd hh hmi hs
  simp only [patternList] at hpat ⊢
  simp only [replaceFirst, hpat]
  simp

theorem parse_replaced (y m d h mi s : Nat) (hv : validDate y m d) (ht : validTime h mi s)
    (hy : y ≤ 9999) :
    parseDateTimeChars (replacedList y m d h mi s) = some (y, m, d, h, mi, s, 0) := by
  obtain ⟨hm1, hm2, hd1, hd2⟩ := hv
  obtain ⟨hh, hmi, hs⟩ := ht
  have hd31 : d ≤ 31 := le_trans hd2 (daysInMonth_le_31 y m)
  have d01 : (digitChar (y / 1000)).isDigit = true := digitChar_isDigit _ (by omega)
  have d02 : (digitChar (y / 100 % 10)).isDigit = true := digitChar_isDigit _ (by omega)
  have d03 : (digitChar (y / 10 % 10)).isDigit = true := digitChar_isDigit _ (by omega)
  have d04 : (digitChar (y % 10)).isDigit = true := digitChar_isDigit _ (by omega)
  have d05 : (digitChar (m / 10)).isDigit = true := digitChar_isDigit _ (by omega)
  have d06 : (digitChar (m % 10)).isDigit = true := digitChar_isDigit _ (by omega)
  have d07 : (digitChar (d / 10)).isDigit = true := digitChar_isDigit _ (by omega)
  have d08 : (digitChar (d % 10)).isDigit = true := digitChar_isDigit _ (by omega)
  have d09 : (digitChar (h / 10)).isDigit = true := digitChar_isDigit _ (by omega)
  have d10 : (digitChar (h % 10)).isDigit = true := digitChar_isDigit _ (by omega)
  have d11 : (digitChar (mi / 10)).isDigit = true := digitChar_isDigit _ (by omega)
  have d12 : (digitChar (mi % 10)).isDigit = true := digitChar_isDigit _ (by omega)
  have d13 : (digitChar (s / 10)).isDigit = true := digitChar_isDigit _ (by omega)
  have d14 : (digitChar (s % 10)).isDigit = true := digitChar_isDigit _ (by omega)
  have e4 : read4 (digitChar (y / 1000)) (digitChar (y / 100 % 10)) (digitChar (y / 10 % 10))
      (digitChar (y % 10)) = y := by
    unfold read4
    rw [digitVal_digitChar _ (by omega), digitVal_digitChar _ (by omega),
      digitVal_digitChar _ (by omega), digitVal_digitChar _ (by omega)]
    omega
  have e2m : read2 (digitChar (m / 10)) (digitChar (m % 10)) = m := by
    unfold read2
    rw [digitVal_digitChar _ (by omega), digitVal_digitChar _ (by omega)]
    omega
  have e2d : read2 (digitChar (d / 10)) (digitChar (d % 10)) = d := by
    unfold read2
    rw [digitVal_digitChar _ (by omega), digitVal_digitChar _ (by omega)]
    omega
  have e2h : read2 (digitChar (h / 10)) (digitChar (h % 10)) = h := by
    unfold read2
    rw [digitVal_digitChar _ (by omega), digitVal_digitChar _ (by omega)]
    omega
  have e2mi : read2 (digitChar (mi / 10)) (digitChar (mi % 10)) = mi := by
    unfold read2
    rw [digitVal_digitChar _ (by omega), digitVal_digitChar _ (by omega)]
    omega
  have e2s : read2 (digitChar (s / 10)) (digitChar (s % 10)) = s := by
    unfold read2
    rw [digitVal_digitChar _ (by omega), digitVal_digitChar _ (by omega)]
    omega
  simp only [replacedList, parseDateTimeChars, d01, d02, d03, d04, d05, d06, d07, d08, d09,
    d10, d11, d12, d13, d14, e4, e2m, e2d, e2h, e2mi, e2s, Bool.and_self, Bool.and_true,
    Bool.true_and, if_true]
  rw [if_pos (show validDate y m d ∧ validTime h mi s from ⟨⟨hm1, hm2, hd1, hd2⟩, hh, hmi, hs⟩)]

theorem toISO_of_fields (y m d h mi s : Nat) (hv : validDate y m d) (ht : validTime h mi s)
    (hy : y ≤ 9999) :
    toISOString (fieldsToMillis y m d h mi s 0) = some (renderISO y m d h mi s 0) := by
  obtain ⟨hm1, hm2, hd1, hd2⟩ := hv
  obtain ⟨hh, hmi, hs⟩ := ht
  have hin : monthStartFrom y 1 (m - 1) + (d - 1) < daysInYear y :=
    inYear_lt y m d ⟨hm1, hm2, hd1, hd2⟩
  have hyc : yearStartFrom 0 y = yearStartClosed y := by
    rw [← yearStart_eq_from, yearStart_eq_closed]
  have htotal : fieldsToMillis y m d h mi s 0 + ((yearStartClosed 1970 * 86400000 : Nat) : Int)
      = ((daysSinceYear0 y m d * 86400000
          + (h * 3600000 + mi * 60000 + s * 1000 + 0) : Nat) : Int) := by
    unfold fieldsToMillis millisPerDay
    omega
  have hD0eq : daysSinceYear0 y m d
      = yearStartFrom 0 y + (monthStartFrom y 1 (m - 1) + (d - 1)) := by
    unfold daysSinceYear0
    rw [hyc]
    omega
  have hfy : findYear 10000 0 (daysSinceYear0 y m d)
      = (y, monthStartFrom y 1 (m - 1) + (d - 1)) := by
    rw [hD0eq]
    have hrem : monthStartFrom y 1 (m - 1) + (d - 1) < daysInYear (0 + y) := by
      simpa using hin
    have hstep := findYear_spec y 10000 0 (monthStartFrom y 1 (m - 1) + (d - 1))
      (by omega) hrem
    simpa using hstep
  have hfm : findMonth 12 y 1 (monthStartFrom y 1 (m - 1) + (d - 1)) = (m, d - 1) := by
    have hrem : d - 1 < daysInMonth y (1 + (m - 1)) := by
      have h1 : 1 + (m - 1) = m := by omega
      rw [h1]
      omega
    have hstep := findMonth_spec (m - 1) 12 1 (d - 1) y (by omega) hrem
    have h1 : 1 + (m - 1) = m := by omega
    rw [h1] at hstep
    exact hstep
  have hlt : daysSinceYear0 y m d < yearStartClosed 10000 := by
    have hsucc := yearStartClosed_succ y
    have hmono : yearStart (y + 1) ≤ yearStart 10000 := yearStart_mono (by omega)
    rw [yearStart_eq_closed, yearStart_eq_closed] at hmono
    rw [hD0eq, hyc]
    omega
  have hdiv : (daysSinceYear0 y m d * 86400000
      + (h * 3600000 + mi * 60000 + s * 1000 + 0)) / 86400000 = daysSinceYear0 y m d := by
    omega
  have hmod : (daysSinceYear0 y m d * 86400000
      + (h * 3600000 + mi * 60000 + s * 1000 + 0)) % 86400000
      = h * 3600000 + mi * 60000 + s * 1000 + 0 := by
    omega
  have ht1 : (h * 3600000 + mi * 60000 + s * 1000 + 0) / 3600000 = h := by omega
  have ht2 : (h * 3600000 + mi * 60000 + s * 1000 + 0) / 60000 % 60 = mi := by omega
  have ht3 : (h * 3600000 + mi * 60000 + s * 1000 + 0) / 1000 % 60 = s := by omega
  have ht4 : (h * 3600000 + mi * 60000 + s * 1000 + 0) % 1000 = 0 := by omega
  have hd' : d - 1 + 1 = d := by omega
  simp only [toISOString, millisPerDay]
  rw [htotal, if_pos (Int.natCast_nonneg _), Int.toNat_natCast, hdiv, hmod,
    if_pos hlt, hfy]
  simp only [hfm]
  rw [ht1, ht2, ht3, ht4, hd']

/-! ### Client flow lemmas -/

theorem ensureApiKey_truthy (env : Env) (s : State) (hk : isTruthyOpt s.apiKey = true) :
    ensureApiKey env s = (s, []) := by
  simp [ensureApiKey, hk]

theorem ensureApiKey_falsy (env : Env) (s : State) (hk : isTruthyOpt s.apiKey = false) :
    ensureApiKey env s = (updateApiKey s env.issuedApiKey, [keyIssuanceReq s env]) := by
  simp [ensureApiKey, hk, generateApiKey, createApiKey, keyIssuanceReq]

/-- With a truthy credential, an authenticated method leaves the state
untouched, issues no key-issuance request, and every request it sends carries
the config's `API-Key` header value. -/
theorem run_auth_truthy (env : Env) (s : State) (c : Call) (hc : isAuthCall c = true)
    (hk : isTruthyOpt s.apiKey = true) :
    runState env s c = s ∧ noIssuance (runReqs env s c) = true
      ∧ ∀ r ∈ runReqs env s c, r.apiKey = s.configApiKey := by
  have hens := ensureApiKey_truthy env s hk
  cases c <;> simp only [isAuthCall] at hc <;>
    simp_all [runState, runReqs, run, getBalances, getDeposits, getDepositInfo, getRefunds,
      getRefundInfo, getWithdraws, requestWithdraw, getWithdrawInfo, getOrders,
      submitLimitOrder, getOrderInfo, cancelOrder, getTrades, getTradeInfo, noIssuance,
      isIssuance, mkGet, mkPost, mkDelete] <;>
    (try split) <;>
    (try split) <;>
    simp_all [noIssuance, isIssuance, mkGet]

/-- With a falsy credential, an authenticated method first runs the
provisioning flow: its state becomes `updateApiKey s issued`, its first
request is the key-issuance request, and no later request is a key-issuance
request. -/
theorem run_auth_falsy (env : Env) (s : State) (c : Call) (hc : isAuthCall c = true)
    (hk : isTruthyOpt s.apiKey = false) :
    runState env s c = updateApiKey s env.issuedApiKey
      ∧ runReqs env s c = keyIssuanceReq s env :: (runReqs env s c).tail
      ∧ noIssuance (runReqs env s c).tail = true := by
  have hens := ensureApiKey_falsy env s hk
  cases c <;> simp only [isAuthCall] at hc <;>
    simp_all [runState, runReqs, run, getBalances, getDeposits, getDepositInfo, getRefunds,
      getRefundInfo, getWithdraws, requestWithdraw, getWithdrawInfo, getOrders,
      submitLimitOrder, getOrderInfo, cancelOrder, getTrades, getTradeInfo, noIssuance,
      isIssuance, mkGet, mkPost, mkDelete] <;>
    (try split) <;>
    (try split) <;>
    simp_all [noIssuance, isIssuance, mkGet]

/-- No public operation modifies the identity fields or the base URL. -/
theorem run_frame (env : Env) (s : State) (c : Call) :
    (runState env s c).privateKey = s.privateKey ∧ (runState env s c).wallet = s.wallet
      ∧ (runState env s c).address = s.address ∧ (runState env s c).baseUrl = s.baseUrl := by
  cases c <;>
    simp_all [runState, run, getBalances, getDeposits, getDepositInfo, getRefunds,
      getRefundInfo, getWithdraws, requestWithdraw, getWithdrawInfo, getOrderbooks,
      getOrderbookInfo, getOrderbookDepth, getOrderbookQuote, getTradeHistory,
      getExchangeStatus, getSymbols, getSymbolsInfo, getOrders, submitLimitOrder,
      getOrderInfo, cancelOrder, getTrades, getTradeInfo, ensureApiKey, updateApiKey,
      generateApiKey, createApiKey] <;>
    (repeat' split) <;>
    simp_all [updateApiKey]

/-- Every public operation keeps the stored key and the config header equal. -/
theorem run_inv (env : Env) (s : State) (c : Call) (h : s.configApiKey = s.apiKey) :
    (runState env s c).configApiKey = (runState env s c).apiKey := by
  cases c <;>
    simp_all [runState, run, getBalances, getDeposits, getDepositInfo, getRefunds,
      getRefundInfo, getWithdraws, requestWithdraw, getWithdrawInfo, getOrderbooks,
      getOrderbookInfo, getOrderbookDepth, getOrderbookQuote, getTradeHistory,
      getExchangeStatus, getSymbols, getSymbolsInfo, getOrders, submitLimitOrder,
      getOrderInfo, cancelOrder, getTrades, getTradeInfo, ensureApiKey, updateApiKey,
      generateApiKey, createApiKey] <;>
    (repeat' split) <;>
    simp_all [updateApiKey]

/-! ### Claims -/

/-- Claim C1: every authenticated method called on an instance holding no
credential issues exactly one key-issuance request, which completes before the
method's own request; afterwards the stored credential is non-absent and stays
put for all later authenticated calls; with a credential already held, no
key-issuance request is issued. -/
theorem c1_lazy_provisioning :
    (∀ (env : Env) (s : State) (c : Call), isAuthCall c = true →
        isTruthyOpt s.apiKey = false → env.issuedApiKey.isEmpty = false →
        (∃ rest, runReqs env s c = keyIssuanceReq s env :: rest ∧ noIssuance rest = true)
          ∧ (runState env s c).apiKey = some env.issuedApiKey
          ∧ isTruthyOpt (runState env s c).apiKey = true
          ∧ ∀ (env2 : Env) (c2 : Call), isAuthCall c2 = true →
              noIssuance (runReqs env2 (runState env s c) c2) = true
                ∧ (runState env2 (runState env s c) c2).apiKey = (runState env s c).apiKey)
      ∧ ∀ (env : Env) (s : State) (c : Call), isAuthCall c = true →
          isTruthyOpt s.apiKey = true → noIssuance (runReqs env s c) = true := by
  constructor
  · intro env s c hc hk hne
    obtain ⟨hstate, hreq, htail⟩ := run_auth_falsy env s c hc hk
    have hkey : (runState env s c).apiKey = some env.issuedApiKey := by
      rw [hstate]; rfl
    have htruthy : isTruthyOpt (runState env s c).apiKey = true := by
      rw [hkey]; simp [isTruthyOpt, hne]
    refine ⟨⟨(runReqs env s c).tail, hreq, htail⟩, hkey, htruthy, ?_⟩
    intro env2 c2 hc2
    obtain ⟨hst2, hni2, _⟩ := run_auth_truthy env2 (runState env s c) c2 hc2 htruthy
    exact ⟨hni2, by rw [hst2]⟩
  · intro env s c hc hk
    exact (run_auth_truthy env s c hc hk).2.1

theorem c1_witness :
    (isAuthCall (Call.getBalances none) = true
        ∧ isTruthyOpt sampleStateBare.apiKey = false
        ∧ sampleEnv.issuedApiKey.isEmpty = false)
      ∧ (runState sampleEnv sampleStateBare (Call.getBalances none)).apiKey
          = some sampleEnv.issuedApiKey :=
  ⟨⟨by decide, by decide, by decide⟩,
    (c1_lazy_provisioning.1 sampleEnv sampleStateBare (Call.getBalances none)
      (by decide) (by decide) (by decide)).2.1⟩

/-- Claim C2: `generateApiKey` signs the JSON serialization of the nonce
payload, POSTs the payload with the `api-sig` header to `/apikeys`, stores
the returned key via `updateApiKey`, and returns that same key. -/
theorem c2_generateApiKey (env : Env) (s : State) :
    (generateApiKey env s).2.1
        = [{ verb := HttpVerb.post, url := s.baseUrl ++ "/apikeys", apiKey := none,
             apiSig := some (env.sign (nonceJson env.nowMillis)),
             body := some (nonceJson env.nowMillis) }]
      ∧ (generateApiKey env s).1 = updateApiKey s env.issuedApiKey
      ∧ (generateApiKey env s).1.apiKey = some env.issuedApiKey
      ∧ (generateApiKey env s).2.2 = env.issuedApiKey :=
  ⟨rfl, rfl, rfl, rfl⟩

/-- Claim C3, counterexample: the rewritten string carries no offset
designator, so the Date constructor interprets it as local time; with host
timezone offset -60 (UTC+1) the spec's example input renders with a shifted
time-of-day, not the claimed same-fields string. -/
theorem c3_counterexample :
    convertToISO8601 (-60) ds2024 = Except.ok iso2024shifted
      ∧ iso2024shifted ≠ iso2024 :=
  ⟨rfl, by decide⟩

/-- Claim C3 (amended): assuming the host timezone is UTC (offset zero), every
input string in the fixed pattern denoting a real calendar date converts to
the UTC ISO-8601 string with the same date and time-of-day fields. -/
theorem c3_utc_conversion (y m d h mi s : Nat) (hv : validDate y m d)
    (ht : validTime h mi s) (hy : y ≤ 9999) :
    convertToISO8601 0 (patternString y m d h mi s)
      = Except.ok (renderISO y m d h mi s 0) := by
  obtain ⟨hm1, hm2, hd1, hd2⟩ := hv
  obtain ⟨hh, hmi, hs⟩ := ht
  have hd31 : d ≤ 31 := le_trans hd2 (daysInMonth_le_31 y m)
  have hrep := replaceFirst_canonical y m d h mi s hy hm2 hd31 hh hmi hs
  have hparse := parse_replaced y m d h mi s ⟨hm1, hm2, hd1, hd2⟩ ⟨hh, hmi, hs⟩ hy
  have hiso := toISO_of_fields y m d h mi s ⟨hm1, hm2, hd1, hd2⟩ ⟨hh, hmi, hs⟩ hy
  simp only [convertToISO8601, patternString_data, hrep, jsDateParse, hparse, zero_mul,
    add_zero, hiso]

theorem c3_witness :
    (validDate 2024 1 2 ∧ validTime 3 4 5 ∧ 2024 ≤ 9999)
      ∧ convertToISO8601 0 (patternString 2024 1 2 3 4 5)
          = Except.ok (renderISO 2024 1 2 3 4 5 0) :=
  ⟨⟨by decide, by decide, by decide⟩,
    c3_utc_conversion 2024 1 2 3 4 5 (by decide) (by decide) (by decide)⟩

/-- The witness input and output of C3 are the spec's example strings. -/
theorem c3_sample_strings :
    patternString 2024 1 2 3 4 5 = ds2024 ∧ renderISO 2024 1 2 3 4 5 0 = iso2024 :=
  ⟨rfl, rfl⟩

/-- Claim C4 (amended): an input whose rewritten form the date parser rejects
produces the invalid-date error; but a non-matching input that the date
parser itself accepts (such as a plain `YYYY-MM-DD` string) produces a
well-formed timestamp, not an error. -/
theorem c4_invalid_inputs :
    (∀ (tz : Int) (str : String),
        jsDateParse tz (replaceFirst str.data) = none →
        convertToISO8601 tz str = Except.error ())
      ∧ ∀ tz : Int, convertToISO8601 tz dateOnly2024 = Except.ok dateOnly2024iso := by
  constructor
  · intro tz str h
    simp [convertToISO8601, h]
  · intro tz
    rfl

/-- Claim C4, counterexample: "2024-01-02" matches the rewrite pattern
nowhere, yet the conversion returns a well-formed timestamp. -/
theorem c4_counterexample :
    hasPatternMatch dateOnly2024.data = false
      ∧ convertToISO8601 0 dateOnly2024 = Except.ok dateOnly2024iso :=
  ⟨by decide, rfl⟩

theorem c4_witness :
    jsDateParse 0 (replaceFirst badInput.data) = none
      ∧ convertToISO8601 0 badInput = Except.error () :=
  ⟨by decide, c4_invalid_inputs.1 0 badInput (by decide)⟩

/-- Claim C5: with all four parameters truthy, `getTrades` queries the trades
endpoint filtered by `end`, `start`, `pair` and `orderId` with both times
converted to ISO-8601; with any parameter missing, it falls back to the
orders listing endpoint `/orders`. -/
theorem c5_getTrades_routing :
    (∀ (env : Env) (s : State) (startTime endTime pair orderId : Option String)
        (en st : String),
        isTruthyOpt startTime = true → isTruthyOpt endTime = true →
        isTruthyOpt pair = true → isTruthyOpt orderId = true →
        convertToISO8601 env.tzOffset (orEmpty endTime) = Except.ok en →
        convertToISO8601 env.tzOffset (orEmpty startTime) = Except.ok st →
        (getTrades env s startTime endTime pair orderId).2.1
          = (ensureApiKey env s).2
            ++ [mkGet ((ensureApiKey env s).1.baseUrl ++ "/trades/?end=" ++ en
                ++ "&start=" ++ st ++ "&pair=" ++ orEmpty pair ++ "&orderId="
                ++ orEmpty orderId) (ensureApiKey env s).1.configApiKey])
      ∧ ∀ (env : Env) (s : State) (startTime endTime pair orderId : Option String),
          (isTruthyOpt startTime && isTruthyOpt endTime && isTruthyOpt pair
            && isTruthyOpt orderId) = false →
          (getTrades env s startTime endTime pair orderId).2.1
            = (ensureApiKey env s).2
              ++ [mkGet ((ensureApiKey env s).1.baseUrl ++ "/orders")
                  (ensureApiKey env s).1.configApiKey] := by
  constructor
  · intro env s a b c d en st h1 h2 h3 h4 hen hst
    simp [getTrades, h1, h2, h3, h4, hen, hst]
  · intro env s a b c d h
    simp [getTrades, h]

theorem c5_witness :
    (isTruthyOpt (some ds1) = true ∧ isTruthyOpt (some ds2) = true
        ∧ isTruthyOpt (some samplePair) = true ∧ isTruthyOpt (some sampleOid) = true
        ∧ convertToISO8601 sampleEnv.tzOffset (orEmpty (some ds2)) = Except.ok iso2
        ∧ convertToISO8601 sampleEnv.tzOffset (orEmpty (some ds1)) = Except.ok iso1)
      ∧ (getTrades sampleEnv sampleStateKeyed (some ds1) (some ds2) (some samplePair)
          (some sampleOid)).2.1
        = (ensureApiKey sampleEnv sampleStateKeyed).2
          ++ [mkGet ((ensureApiKey sampleEnv sampleStateKeyed).1.baseUrl ++ "/trades/?end="
              ++ iso2 ++ "&start=" ++ iso1 ++ "&pair=" ++ orEmpty (some samplePair)
              ++ "&orderId=" ++ orEmpty (some sampleOid))
              (ensureApiKey sampleEnv sampleStateKeyed).1.configApiKey] :=
  ⟨⟨by decide, by decide, by decide, by decide, rfl, rfl⟩,
    c5_getTrades_routing.1 sampleEnv sampleStateKeyed (some ds1) (some ds2)
      (some samplePair) (some sampleOid) iso2 iso1 (by decide) (by decide) (by decide)
      (by decide) rfl rfl⟩

/-- Claim C6, counterexample: `getOrderbooks` passes `this.config`, so with a
credential set its request does carry the `API-Key` header, contradicting the
claim that it does not. -/
theorem c6_counterexample :
    (getOrderbooks sampleEnv sampleStateKeyed).2.1
        = [mkGet (sampleStateKeyed.baseUrl ++ "/orderbooks") (some sampleKey)]
      ∧ (mkGet (sampleStateKeyed.baseUrl ++ "/orderbooks") (some sampleKey)).apiKey
          ≠ none :=
  ⟨rfl, by decide⟩

/-- Claim C6 (amended): `getOrderbooks` performs no key provisioning and does
not change the state, but its request carries the config's `API-Key` header
value: absent when no key is set, the stored key otherwise. -/
theorem c6_getOrderbooks (env : Env) (s : State) :
    (getOrderbooks env s).1 = s
      ∧ (getOrderbooks env s).2.1 = [mkGet (s.baseUrl ++ "/orderbooks") s.configApiKey]
      ∧ noIssuance (getOrderbooks env s).2.1 = true
      ∧ (mkGet (s.baseUrl ++ "/orderbooks") s.configApiKey).apiKey = s.configApiKey := by
  refine ⟨rfl, rfl, ?_, rfl⟩
  simp [getOrderbooks, noIssuance, isIssuance, mkGet]

/-- Claim C7: the stored API key and the outgoing `API-Key` header value are
equal at construction and stay equal after every operation; with a credential
`k` held, every request of an authenticated call carries `API-Key: k`; before
any key is set, the header value is absent. -/
theorem c7_credential_header :
    (∀ (env : Env) (pk : String) (k : Option String),
        (mkCax env pk k).configApiKey = (mkCax env pk k).apiKey)
      ∧ (∀ (env : Env) (pk : String), (mkCax env pk none).configApiKey = none)
      ∧ (∀ (env : Env) (s : State) (c : Call), s.configApiKey = s.apiKey →
          (runState env s c).configApiKey = (runState env s c).apiKey)
      ∧ ∀ (env : Env) (s : State) (c : Call) (k : String), isAuthCall c = true →
          s.apiKey = some k → isTruthyOpt s.apiKey = true → s.configApiKey = s.apiKey →
          ∀ r ∈ runReqs env s c, r.apiKey = some k := by
  refine ⟨fun env pk k => rfl, fun env pk => rfl, fun env s c h => run_inv env s c h, ?_⟩
  intro env s c k hc hk ht hcfg r hr
  have h := (run_auth_truthy env s c hc ht).2.2 r hr
  rw [h, hcfg, hk]

theorem c7_witness :
    (isAuthCall (Call.getBalances none) = true
        ∧ sampleStateKeyed.apiKey = some sampleKey
        ∧ isTruthyOpt sampleStateKeyed.apiKey = true
        ∧ sampleStateKeyed.configApiKey = sampleStateKeyed.apiKey)
      ∧ (mkGet (caxBaseUrl ++ "/balances") (some sampleKey)).apiKey = some sampleKey :=
  ⟨⟨by decide, rfl, by decide, rfl⟩,
    c7_credential_header.2.2.2 sampleEnv sampleStateKeyed (Call.getBalances none)
      sampleKey (by decide) rfl (by decide) rfl
      (mkGet (caxBaseUrl ++ "/balances") (some sampleKey)) (by decide)⟩

/-- Claim C8: `getDeposits` with all three parameters omitted targets the
unfiltered `/deposits` endpoint; with all three supplied it targets the
filtered endpoint with ISO-8601 `end`/`start` bounds and the symbol; with any
proper partial subset supplied it behaves exactly like the fully-omitted
case. -/
theorem c8_getDeposits_routing :
    (∀ (env : Env) (s : State),
        (getDeposits env s none none none).2.1
          = (ensureApiKey env s).2
            ++ [mkGet ((ensureApiKey env s).1.baseUrl ++ "/deposits")
                (ensureApiKey env s).1.configApiKey])
      ∧ (∀ (env : Env) (s : State) (startTime endTime symbol : Option String)
          (en st : String),
          isTruthyOpt startTime = true → isTruthyOpt endTime = true →
          isTruthyOpt symbol = true →
          convertToISO8601 env.tzOffset (orEmpty endTime) = Except.ok en →
          convertToISO8601 env.tzOffset (orEmpty startTime) = Except.ok st →
          (getDeposits env s startTime endTime symbol).2.1
            = (ensureApiKey env s).2
              ++ [mkGet ((ensureApiKey env s).1.baseUrl ++ "/deposits/?end=" ++ en
                  ++ "&start=" ++ st ++ "&symbol=" ++ orEmpty symbol)
                  (ensureApiKey env s).1.configApiKey])
      ∧ ∀ (env : Env) (s : State) (startTime endTime symbol : Option String),
          (isTruthyOpt startTime && isTruthyOpt endTime && isTruthyOpt symbol) = false →
          getDeposits env s startTime endTime symbol = getDeposits env s none none none := by
  refine ⟨?_, ?_, ?_⟩
  · intro env s
    simp [getDeposits, isTruthyOpt]
  · intro env s a b c en st h1 h2 h3 hen hst
    simp [getDeposits, h1, h2, h3, hen, hst]
  · intro env s a b c h
    have hnone : (isTruthyOpt (none : Option String) && isTruthyOpt none
        && isTruthyOpt none) = false := rfl
    simp only [getDeposits, h, hnone]
    simp

theorem c8_witness :
    (isTruthyOpt (some ds1) = true ∧ isTruthyOpt (some ds2) = true
        ∧ isTruthyOpt (some sampleSym) = true
        ∧ convertToISO8601 sampleEnv.tzOffset (orEmpty (some ds2)) = Except.ok iso2
        ∧ convertToISO8601 sampleEnv.tzOffset (orEmpty (some ds1)) = Except.ok iso1)
      ∧ (getDeposits sampleEnv sampleStateKeyed (some ds1) (some ds2)
          (some sampleSym)).2.1
        = (ensureApiKey sampleEnv sampleStateKeyed).2
          ++ [mkGet ((ensureApiKey sampleEnv sampleStateKeyed).1.baseUrl
              ++ "/deposits/?end=" ++ iso2 ++ "&start=" ++ iso1 ++ "&symbol="
              ++ orEmpty (some sampleSym))
              (ensureApiKey sampleEnv sampleStateKeyed).1.configApiKey] :=
  ⟨⟨by decide, by decide, by decide, rfl, rfl⟩,
    c8_getDeposits_routing.2.1 sampleEnv sampleStateKeyed (some ds1) (some ds2)
      (some sampleSym) iso2 iso1 (by decide) (by decide) (by decide) rfl rfl⟩

/-- Claim C9: no public operation changes the identity fields (private key,
wallet, derived address) or the base URL; only the credential is mutated. -/
theorem c9_identity_frame (env : Env) (s : State) (c : Call) :
    (runState env s c).privateKey = s.privateKey ∧ (runState env s c).wallet = s.wallet
      ∧ (runState env s c).address = s.address
      ∧ (runState env s c).baseUrl = s.baseUrl :=
  run_frame env s c

/-- Claim C10: a stored empty-string API key is treated as absent — because
the lazy-auth check tests truthiness — so every authenticated method runs the
provisioning flow first. -/
theorem c10_empty_key (env : Env) (s : State) (c : Call) (k : String)
    (hc : isAuthCall c = true) (hk : s.apiKey = some k) (hke : k.isEmpty = true) :
    (∃ rest, runReqs env s c = keyIssuanceReq s env :: rest ∧ noIssuance rest = true)
      ∧ runState env s c = updateApiKey s env.issuedApiKey := by
  have hfalse : isTruthyOpt s.apiKey = false := by
    rw [hk]; simp [isTruthyOpt, hke]
  obtain ⟨hstate, hreq, htail⟩ := run_auth_falsy env s c hc hfalse
  exact ⟨⟨(runReqs env s c).tail, hreq, htail⟩, hstate⟩

theorem c10_witness :
    (isAuthCall (Call.getBalances none) = true
        ∧ sampleStateEmptyKey.apiKey = some emptyKey ∧ emptyKey.isEmpty = true)
      ∧ runState sampleEnv sampleStateEmptyKey (Call.getBalances none)
          = updateApiKey sampleStateEmptyKey sampleEnv.issuedApiKey :=
  ⟨⟨by decide, rfl, by decide⟩,
    (c10_empty_key sampleEnv sampleStateEmptyKey (Call.getBalances none) emptyKey
      (by decide) rfl (by decide)).2⟩

end Cax
